import Mathlib

/-!
Verification development for the trading-account management slice of
`tiaferro/dallo` (backend: `repositories/account_repo.py`,
`api/account_management_routes.py`, `schemas/account.py`).

The relational store is modelled as a list of account records plus an
id counter; the ORM row is the `Account` structure below.  The source
stores `is_active` as the string `"true"` / `"false"` (see
`create_account` in `account_repo.py`), so the model keeps that field a
string and exposes the boolean view `is_active == "true"` exactly where
the routes do.  Monetary fields are modelled as rationals; the code only
assigns them, never computes with them.  The session verifier
(`verify_auth_session` from `repositories/user_repo.py`) is an external
collaborator: it is passed to each route as an abstract function from
session tokens to an optional user id.
-/

/-- An account row, mirroring the ORM `Account` model as populated by
`account_repo.create_account`.  `model`, `base_url`, `api_key` are
nullable columns; `is_active` is the string flag the source uses. -/
structure Account where
  id : Nat
  user_id : Nat
  name : String
  account_type : String
  model : Option String
  base_url : Option String
  api_key : Option String
  initial_capital : Rat
  current_cash : Rat
  frozen_cash : Rat
  is_active : String
deriving Repr, DecidableEq

/-- The account table: rows in insertion order plus the next primary key. -/
structure DB where
  accounts : List Account
  nextId : Nat
deriving Repr, DecidableEq

/-- `account_repo.create_account`: builds the row, nulling
`model`/`base_url`/`api_key` unless `account_type == "AI"`, sets
`current_cash = initial_capital`, `frozen_cash = 0`, `is_active = "true"`,
and commits it.  Returns the new row and the new store. -/
def create_account (db : DB) (user_id : Nat) (name : String)
    (account_type : String) (initial_capital : Rat)
    (model : String) (base_url : String) (api_key : Option String) :
    Account × DB :=
  let account : Account :=
    { id := db.nextId
      user_id := user_id
      name := name
      account_type := account_type
      model := if account_type = "AI" then some model else none
      base_url := if account_type = "AI" then some base_url else none
      api_key := if account_type = "AI" then api_key else none
      initial_capital := initial_capital
      current_cash := initial_capital
      frozen_cash := 0
      is_active := "true" }
  (account, ⟨db.accounts ++ [account], db.nextId + 1⟩)

/-- `account_repo.get_account`: first row whose primary key matches. -/
def get_account (db : DB) (account_id : Nat) : Option Account :=
  db.accounts.find? (fun a => a.id == account_id)

/-- `account_repo.get_accounts_by_user`: rows of a user, optionally
restricted to `is_active == "true"`. -/
def get_accounts_by_user (db : DB) (user_id : Nat) (active_only : Bool) :
    List Account :=
  let base := db.accounts.filter (fun a => a.user_id == user_id)
  if active_only then base.filter (fun a => a.is_active == "true") else base

/-- `account_repo.get_or_create_default_account`: first active account of
the user if any, else create an `"AI"` account from the parameters. -/
def get_or_create_default_account (db : DB) (user_id : Nat)
    (account_name : String) (initial_capital : Rat)
    (model : String) (base_url : String) (api_key : String) :
    Account × DB :=
  match get_accounts_by_user db user_id true with
  | a :: _ => (a, db)
  | [] =>
      create_account db user_id account_name "AI" initial_capital
        model base_url (some api_key)

/-- `get_or_create_default_account` at its Python default arguments. -/
def get_or_create_default_account_defaults (db : DB) (user_id : Nat) :
    Account × DB :=
  get_or_create_default_account db user_id "Default AI Trader" 10000
    "gpt-4-turbo" "https://api.openai.com/v1"
    "default-key-please-update-in-settings"

/-- The `if field is not None: row.field = field` pattern of
`account_repo.update_account` on a nullable column. -/
def overwrite (newVal : Option String) (old : Option String) :
    Option String :=
  match newVal with
  | some v => some v
  | none => old

/-- The ORM attribute-assignment-plus-commit pattern: replace the rows
carrying the given primary key by the mutated row. -/
def setRow (db : DB) (account_id : Nat) (a2 : Account) : DB :=
  ⟨db.accounts.map (fun b => if b.id == account_id then a2 else b),
    db.nextId⟩

/-- The field mutations of `account_repo.update_account` on one row. -/
def applyUpdate (name : Option String) (model : Option String)
    (base_url : Option String) (api_key : Option String)
    (a : Account) : Account :=
  { a with
    name := name.getD a.name
    model := overwrite model a.model
    base_url := overwrite base_url a.base_url
    api_key := overwrite api_key a.api_key }

/-- `account_repo.update_account`: overwrite the provided fields of the
row, commit; `none` (and an unchanged store) when the id is absent. -/
def update_account (db : DB) (account_id : Nat)
    (name : Option String) (model : Option String)
    (base_url : Option String) (api_key : Option String) :
    Option Account × DB :=
  match get_account db account_id with
  | none => (none, db)
  | some a =>
      (some (applyUpdate name model base_url api_key a),
        setRow db account_id (applyUpdate name model base_url api_key a))

/-- The field mutations of `account_repo.update_account_cash` on one
row: `current_cash` always overwritten, `frozen_cash` only if given. -/
def applyCash (current_cash : Rat) (frozen_cash : Option Rat)
    (a : Account) : Account :=
  { a with
    current_cash := current_cash
    frozen_cash := frozen_cash.getD a.frozen_cash }

/-- `account_repo.update_account_cash`: always overwrite `current_cash`,
overwrite `frozen_cash` only when supplied. -/
def update_account_cash (db : DB) (account_id : Nat)
    (current_cash : Rat) (frozen_cash : Option Rat) :
    Option Account × DB :=
  match get_account db account_id with
  | none => (none, db)
  | some a =>
      (some (applyCash current_cash frozen_cash a),
        setRow db account_id (applyCash current_cash frozen_cash a))

/-- `account_repo.deactivate_account`: flip `is_active` to `"false"`. -/
def deactivate_account (db : DB) (account_id : Nat) :
    Option Account × DB :=
  match get_account db account_id with
  | none => (none, db)
  | some a =>
      (some { a with is_active := "false" },
        setRow db account_id { a with is_active := "false" })

/-- `account_repo.activate_account`: flip `is_active` to `"true"`. -/
def activate_account (db : DB) (account_id : Nat) :
    Option Account × DB :=
  match get_account db account_id with
  | none => (none, db)
  | some a =>
      (some { a with is_active := "true" },
        setRow db account_id { a with is_active := "true" })

/-! ## API layer (`schemas/account.py`, `api/account_management_routes.py`) -/

/-- Request body of `POST /api/accounts/` (`AccountCreate`).  In the
schema `api_key` is a required string and the defaults are
`model = "gpt-4-turbo"`, `base_url = "https://api.openai.com/v1"`,
`initial_capital = 10000.0`, `account_type = "AI"`. -/
structure AccountCreate where
  name : String
  model : String
  base_url : String
  api_key : String
  initial_capital : Rat
  account_type : String
deriving Repr, DecidableEq

/-- Request body of `PUT /api/accounts/{id}` (`AccountUpdate`): all
fields optional, defaulting to null. -/
structure AccountUpdate where
  name : Option String
  model : Option String
  base_url : Option String
  api_key : Option String
deriving Repr, DecidableEq

/-- Response shape (`AccountOut`): `model`, `base_url` and `api_key` are
required (non-null) strings, `is_active` a boolean. -/
structure AccountOut where
  id : Nat
  user_id : Nat
  name : String
  model : String
  base_url : String
  api_key : String
  initial_capital : Rat
  current_cash : Rat
  frozen_cash : Rat
  account_type : String
  is_active : Bool
deriving Repr, DecidableEq

/-- The error kinds the routes raise, with their HTTP status codes. -/
inductive ApiError where
  | unauthorized
  | forbidden
  | notFound
  | duplicateName
  | internal
deriving Repr, DecidableEq

/-- HTTP status code of each error kind. -/
def ApiError.status : ApiError → Nat
  | .unauthorized => 401
  | .forbidden => 403
  | .notFound => 404
  | .duplicateName => 400
  | .internal => 500

/-- Python `s[-4:]`: the last `min 4 (length s)` characters. -/
def takeRight4 (s : String) : String :=
  ⟨s.data.drop (s.data.length - 4)⟩

/-- Python `s[:4]` (used only to state properties of the mask). -/
def takeLeft4 (s : String) : String :=
  ⟨s.data.take 4⟩

/-- The masking expression the routes apply to every outward `api_key`:
`"****" + account.api_key[-4:] if account.api_key else ""`.  Both a null
key and an empty key are falsy in Python, giving `""`. -/
def maskKey (api_key : Option String) : String :=
  match api_key with
  | none => ""
  | some k => if k = "" then "" else "****" ++ takeRight4 k

/-- Building an `AccountOut` from a row, as every route does.  The
schema requires `model` and `base_url` to be strings, so a row where
either is null makes the construction fail (pydantic validation error,
caught by the route's generic handler). -/
def toAccountOut (a : Account) : Option AccountOut :=
  match a.model, a.base_url with
  | some m, some b =>
      some
        { id := a.id
          user_id := a.user_id
          name := a.name
          model := m
          base_url := b
          api_key := maskKey a.api_key
          initial_capital := a.initial_capital
          current_cash := a.current_cash
          frozen_cash := a.frozen_cash
          account_type := a.account_type
          is_active := a.is_active == "true" }
  | _, _ => none

/-- The list comprehension of the list route: shape every row, aborting
the whole response on the first row that fails to shape. -/
def buildOuts : List Account → Option (List AccountOut)
  | [] => some []
  | a :: rest =>
      match toAccountOut a, buildOuts rest with
      | some o, some os => some (o :: os)
      | _, _ => none

/-- A session verifier (external collaborator `verify_auth_session`):
maps a session token to a user id, or to nothing when the session is
invalid or expired. -/
def Verifier : Type := String → Option Nat

/-- `GET /api/accounts/`: resolve the session, list the caller's active
accounts, shape each with the masked key. -/
def list_user_accounts (v : Verifier) (db : DB) (token : String) :
    Except ApiError (List AccountOut) :=
  match v token with
  | none => .error .unauthorized
  | some uid =>
      match buildOuts (get_accounts_by_user db uid true) with
      | none => .error .internal
      | some outs => .ok outs

/-- `POST /api/accounts/`: resolve the session, reject a name already
used by one of the caller's active accounts, then create and shape.
The row is committed by `create_account` before the response is shaped,
so a shaping failure still leaves the row in the store. -/
def create_trading_account (v : Verifier) (db : DB) (token : String)
    (data : AccountCreate) : Except ApiError AccountOut × DB :=
  match v token with
  | none => (.error .unauthorized, db)
  | some uid =>
      if (get_accounts_by_user db uid true).any
          (fun acc => acc.name == data.name) then
        (.error .duplicateName, db)
      else
        match toAccountOut (create_account db uid data.name
            data.account_type data.initial_capital data.model
            data.base_url (some data.api_key)).1 with
        | none =>
            (.error .internal,
              (create_account db uid data.name data.account_type
                data.initial_capital data.model data.base_url
                (some data.api_key)).2)
        | some out =>
            (.ok out,
              (create_account db uid data.name data.account_type
                data.initial_capital data.model data.base_url
                (some data.api_key)).2)

/-- `GET /api/accounts/{id}`: resolve the session, 404 when the id is
absent, 403 when the row belongs to another user, else the shaped row. -/
def get_account_details (v : Verifier) (db : DB) (token : String)
    (account_id : Nat) : Except ApiError AccountOut :=
  match v token with
  | none => .error .unauthorized
  | some uid =>
      match get_account db account_id with
      | none => .error .notFound
      | some account =>
          if account.user_id ≠ uid then .error .forbidden
          else
            match toAccountOut account with
            | none => .error .internal
            | some out => .ok out

/-- Python truthiness of `account_data.name`: a string is truthy iff it
is present and non-empty. -/
def nameTruthy (name : Option String) : Bool :=
  match name with
  | some n => n != ""
  | none => false

/-- `PUT /api/accounts/{id}`: authorization contract, then — only when
the supplied name is truthy — the duplicate check against the caller's
other active accounts, then the repository update and shaping. -/
def update_trading_account (v : Verifier) (db : DB) (token : String)
    (account_id : Nat) (data : AccountUpdate) :
    Except ApiError AccountOut × DB :=
  match v token with
  | none => (.error .unauthorized, db)
  | some uid =>
      match get_account db account_id with
      | none => (.error .notFound, db)
      | some account =>
          if account.user_id ≠ uid then (.error .forbidden, db)
          else if nameTruthy data.name &&
              (get_accounts_by_user db uid true).any
                (fun acc => acc.name == data.name.getD "" &&
                  acc.id != account_id) then
            (.error .duplicateName, db)
          else
            match (update_account db account_id data.name data.model
                data.base_url data.api_key).1 with
            | none =>
                (.error .internal,
                  (update_account db account_id data.name data.model
                    data.base_url data.api_key).2)
            | some updated =>
                match toAccountOut updated with
                | none =>
                    (.error .internal,
                      (update_account db account_id data.name data.model
                        data.base_url data.api_key).2)
                | some out =>
                    (.ok out,
                      (update_account db account_id data.name data.model
                        data.base_url data.api_key).2)

/-- `DELETE /api/accounts/{id}`: authorization contract, then the
repository soft delete; answers with a message naming the account. -/
def delete_trading_account (v : Verifier) (db : DB) (token : String)
    (account_id : Nat) : Except ApiError String × DB :=
  match v token with
  | none => (.error .unauthorized, db)
  | some uid =>
      match get_account db account_id with
      | none => (.error .notFound, db)
      | some account =>
          if account.user_id ≠ uid then (.error .forbidden, db)
          else
            (.ok ("Account " ++ account.name ++
                " deactivated successfully"),
              (deactivate_account db account_id).2)

/-- `GET /api/accounts/{id}/default`: resolve the session, delegate to
the repository get-or-create at its defaults, shape the result. -/
def get_or_create_default (v : Verifier) (db : DB) (token : String) :
    Except ApiError AccountOut × DB :=
  match v token with
  | none => (.error .unauthorized, db)
  | some uid =>
      match toAccountOut (get_or_create_default_account_defaults db uid).1 with
      | none =>
          (.error .internal,
            (get_or_create_default_account_defaults db uid).2)
      | some out =>
          (.ok out,
            (get_or_create_default_account_defaults db uid).2)

/-- The masking rule as the spec states it: the fixed literal `"****"`
followed by the last four characters for a present non-empty key, the
empty string for an absent or empty key. -/
def maskLaw (stored : Option String) (out : String) : Prop :=
  (∀ k, stored = some k → k ≠ "" → out = "****" ++ takeRight4 k) ∧
  ((stored = none ∨ stored = some "") → out = "")

/-! ## Concrete instances used by witnesses and counterexamples -/

/-- A verifier accepting every token as user 1. -/
def exVerify1 : Verifier := fun _ => some 1

/-- A verifier rejecting every token (invalid/expired session). -/
def exVerifyNone : Verifier := fun _ => none

/-- The empty store. -/
def exDB0 : DB := ⟨[], 0⟩

/-- An AI account of user 1 whose raw key happens to start with the
mask literal and have length eight. -/
def exC1account : Account :=
  { id := 1
    user_id := 1
    name := "Bot1"
    account_type := "AI"
    model := some "gpt-4-turbo"
    base_url := some "https://api.openai.com/v1"
    api_key := some "****abcd"
    initial_capital := 10000
    current_cash := 10000
    frozen_cash := 0
    is_active := "true" }

/-- A store holding only `exC1account`. -/
def exC1db : DB := ⟨[exC1account], 2⟩

/-- What `GET /api/accounts/1` answers on `exC1db`: the masked key
coincides with the raw stored key. -/
def exC1out : AccountOut :=
  { id := 1
    user_id := 1
    name := "Bot1"
    model := "gpt-4-turbo"
    base_url := "https://api.openai.com/v1"
    api_key := "****abcd"
    initial_capital := 10000
    current_cash := 10000
    frozen_cash := 0
    account_type := "AI"
    is_active := true }

/-- User 1's only account named `"X"`, inactive. -/
def exC3account : Account :=
  { id := 1
    user_id := 1
    name := "X"
    account_type := "AI"
    model := some "gpt-4-turbo"
    base_url := some "https://api.openai.com/v1"
    api_key := some "old-key"
    initial_capital := 10000
    current_cash := 10000
    frozen_cash := 0
    is_active := "false" }

/-- A store where user 1's only `"X"`-named account is inactive. -/
def exC3db : DB := ⟨[exC3account], 2⟩

/-- A creation request named `"X"` with the schema defaults. -/
def exC3data : AccountCreate :=
  { name := "X"
    model := "gpt-4-turbo"
    base_url := "https://api.openai.com/v1"
    api_key := "sk-abcdef123456"
    initial_capital := 10000
    account_type := "AI" }

/-- An active account of user 1 whose name is the empty string. -/
def exC4empty : Account :=
  { id := 1
    user_id := 1
    name := ""
    account_type := "AI"
    model := some "m1"
    base_url := some "b1"
    api_key := some "key1"
    initial_capital := 10000
    current_cash := 10000
    frozen_cash := 0
    is_active := "true" }

/-- A second active account of user 1, named `"x"`. -/
def exC4other : Account :=
  { id := 2
    user_id := 1
    name := "x"
    account_type := "AI"
    model := some "m2"
    base_url := some "b2"
    api_key := some "key2"
    initial_capital := 10000
    current_cash := 10000
    frozen_cash := 0
    is_active := "true" }

/-- A store where user 1 owns an active `""`-named account and an
active `"x"`-named account. -/
def exC4db : DB := ⟨[exC4empty, exC4other], 3⟩

/-- An update request supplying the empty string as the new name. -/
def exC4data : AccountUpdate :=
  { name := some ""
    model := none
    base_url := none
    api_key := none }

/-- What updating account 2 of `exC4db` with `exC4data` answers: a
success, although the new name `""` collides with `exC4empty`. -/
def exC4out : AccountOut :=
  { id := 2
    user_id := 1
    name := ""
    model := "m2"
    base_url := "b2"
    api_key := "****key2"
    initial_capital := 10000
    current_cash := 10000
    frozen_cash := 0
    account_type := "AI"
    is_active := true }

/-- An update request supplying the non-empty name `"x"`. -/
def exC4data2 : AccountUpdate :=
  { name := some "x"
    model := none
    base_url := none
    api_key := none }

/-- The row `get_or_create_default_account` creates at its defaults for
a user with no active accounts. -/
def defaultAccount (db : DB) (uid : Nat) : Account :=
  { id := db.nextId
    user_id := uid
    name := "Default AI Trader"
    account_type := "AI"
    model := some "gpt-4-turbo"
    base_url := some "https://api.openai.com/v1"
    api_key := some "default-key-please-update-in-settings"
    initial_capital := 10000
    current_cash := 10000
    frozen_cash := 0
    is_active := "true" }

/-- A MANUAL-type creation request. -/
def exC10data : AccountCreate :=
  { name := "Hand"
    model := "gpt-4-turbo"
    base_url := "https://api.openai.com/v1"
    api_key := "sk-abcdef123456"
    initial_capital := 10000
    account_type := "MANUAL" }

/-! ## Helper lemmas -/

/-- A row found by primary key is a stored row with that key. -/
lemma get_account_mem (db : DB) (i : Nat) (a : Account)
    (h : get_account db i = some a) : a ∈ db.accounts ∧ a.id = i := by
  refine ⟨List.mem_of_find?_eq_some h, ?_⟩
  have := List.find?_some h
  exact beq_iff_eq.mp this

/-- Membership in a user's active listing, spelled out. -/
lemma mem_get_accounts_by_user (db : DB) (uid : Nat) (a : Account) :
    a ∈ get_accounts_by_user db uid true ↔
      a ∈ db.accounts ∧ a.user_id = uid ∧ a.is_active = "true" := by
  simp [get_accounts_by_user, List.mem_filter, and_assoc]
  tauto

/-- Replacing every row with the target key by a row carrying the same
key makes the key lookup return the replacement. -/
lemma find?_map_replace (l : List Account) (i : Nat) (a a2 : Account)
    (h : l.find? (fun b => b.id == i) = some a) (h2 : a2.id = i) :
    (l.map (fun b => if b.id == i then a2 else b)).find?
      (fun b => b.id == i) = some a2 := by
  induction l with
  | nil => exact Option.noConfusion h
  | cons b t ih =>
    by_cases hb : (b.id == i) = true
    · simp only [List.map_cons, hb, if_true]
      exact List.find?_cons_of_pos _ (by simp [h2])
    · have hb2 : (b.id == i) = false := by simpa using hb
      simp only [List.map_cons, hb2, if_false, Bool.false_eq_true]
      rw [List.find?_cons] at h ⊢
      simp only [hb2] at h ⊢
      exact ih h

/-- Every shaped row in a successfully built response list comes from a
row of the input list. -/
lemma buildOuts_mem (l : List Account) (outs : List AccountOut)
    (h : buildOuts l = some outs) :
    ∀ o ∈ outs, ∃ a ∈ l, toAccountOut a = some o := by
  induction l generalizing outs with
  | nil =>
    intro o ho
    unfold buildOuts at h
    cases h
    exact absurd ho (by simp)
  | cons a rest ih =>
    intro o ho
    unfold buildOuts at h
    cases h1 : toAccountOut a with
    | none => rw [h1] at h; exact Option.noConfusion h
    | some o1 =>
      rw [h1] at h
      cases h2 : buildOuts rest with
      | none => rw [h2] at h; exact Option.noConfusion h
      | some os =>
        rw [h2] at h
        cases h
        rcases List.mem_cons.mp ho with rfl | ho2
        · exact ⟨a, List.mem_cons_self a rest, h1⟩
        · rcases ih os h2 o ho2 with ⟨b, hb, hbo⟩
          exact ⟨b, List.mem_cons_of_mem a hb, hbo⟩

/-- A successfully shaped row keeps the primary key and carries exactly
the masked key. -/
lemma toAccountOut_api_key (a : Account) (o : AccountOut)
    (h : toAccountOut a = some o) :
    o.api_key = maskKey a.api_key ∧ o.id = a.id := by
  unfold toAccountOut at h
  cases hm : a.model with
  | none => rw [hm] at h; exact Option.noConfusion h
  | some m =>
    cases hb : a.base_url with
    | none => rw [hm, hb] at h; exact Option.noConfusion h
    | some b =>
      rw [hm, hb] at h
      cases h
      exact ⟨rfl, rfl⟩

/-- The code's masking expression satisfies the spec's masking rule. -/
lemma maskLaw_maskKey (stored : Option String) :
    maskLaw stored (maskKey stored) := by
  constructor
  · intro k hk hne
    subst hk
    simp [maskKey, hne]
  · intro hk
    rcases hk with rfl | rfl
    · rfl
    · rfl

/-- The mask reveals no more than the last four characters: two
non-empty keys with the same last four characters mask identically. -/
lemma maskKey_last4 (k1 k2 : String) (h1 : k1 ≠ "") (h2 : k2 ≠ "")
    (h : takeRight4 k1 = takeRight4 k2) :
    maskKey (some k1) = maskKey (some k2) := by
  show (if k1 = "" then "" else "****" ++ takeRight4 k1)
      = (if k2 = "" then "" else "****" ++ takeRight4 k2)
  rw [if_neg h1, if_neg h2, h]

/-- String append acts as list append on the character data. -/
lemma string_data_append (s t : String) :
    (s ++ t).data = s.data ++ t.data := by
  cases s; cases t; rfl

/-- Exactly which keys are fixed points of the mask: the empty key, and
the keys of length eight that begin with the mask literal. -/
lemma maskKey_eq_self (k : String) (h : maskKey (some k) = k) :
    k = "" ∨ (k.length = 8 ∧ takeLeft4 k = "****") := by
  by_cases he : k = ""
  · exact Or.inl he
  · right
    have h0 : (if k = "" then "" else "****" ++ takeRight4 k) = k := h
    rw [if_neg he] at h0
    clear h
    rename' h0 => h
    obtain ⟨l⟩ := k
    have hd : ('*' :: '*' :: '*' :: '*' :: l.drop (l.length - 4)) = l := by
      have h2 := congrArg String.data h
      rw [string_data_append] at h2
      exact h2
    have h3 := congrArg List.length hd
    simp only [List.length_cons, List.length_drop] at h3
    have hl8 : l.length = 8 := by omega
    refine ⟨hl8, ?_⟩
    have ht : l.take 4 = ['*', '*', '*', '*'] := by
      conv_lhs => rw [← hd]
      rfl
    show String.mk (l.take 4) = "****"
    rw [ht]

/-- A replacement row is stored whenever some row carried its key. -/
lemma mem_setRow (db : DB) (i : Nat) (a a2 : Account)
    (h : get_account db i = some a) : a2 ∈ (setRow db i a2).accounts := by
  obtain ⟨hmem, hid⟩ := get_account_mem db i a h
  exact List.mem_map.mpr ⟨a, hmem, by simp [hid]⟩

/-- Looking up the key after a replacement returns the replacement. -/
lemma get_setRow (db : DB) (i : Nat) (a a2 : Account)
    (h : get_account db i = some a) (h2 : a2.id = i) :
    get_account (setRow db i a2) i = some a2 :=
  find?_map_replace db.accounts i a a2 h h2

/-- Row replacement keeps the number of rows. -/
lemma length_setRow (db : DB) (i : Nat) (a2 : Account) :
    (setRow db i a2).accounts.length = db.accounts.length := by
  simp [setRow]

/-- A row returned by the repository update is stored afterwards. -/
lemma update_account_mem (db : DB) (i : Nat)
    (nm mdl burl key : Option String) (a2 : Account)
    (h : (update_account db i nm mdl burl key).1 = some a2) :
    a2 ∈ (update_account db i nm mdl burl key).2.accounts := by
  unfold update_account at h ⊢
  split at h
  · exact Option.noConfusion h
  next a hg =>
    show a2 ∈ (setRow db i (applyUpdate nm mdl burl key a)).accounts
    have h2 : applyUpdate nm mdl burl key a = a2 := by simpa using h
    rw [← h2]
    exact mem_setRow db i a _ hg

/-- The row handed back by get-or-create is stored in the store it
hands back. -/
lemma get_or_create_mem (db : DB) (uid : Nat) (nm : String) (ic : Rat)
    (mdl burl key : String) :
    (get_or_create_default_account db uid nm ic mdl burl key).1 ∈
      (get_or_create_default_account db uid nm ic mdl burl key).2.accounts := by
  unfold get_or_create_default_account
  cases hl : get_accounts_by_user db uid true with
  | cons a rest =>
      show a ∈ db.accounts
      have ha : a ∈ get_accounts_by_user db uid true := by
        rw [hl]; exact List.mem_cons_self a rest
      exact ((mem_get_accounts_by_user db uid a).mp ha).1
  | nil => simp [create_account]

/-- Every row of a successful listing response is a stored row shaped
with the masked key. -/
lemma list_ok_mask (v : Verifier) (db : DB) (t : String)
    (outs : List AccountOut)
    (h : list_user_accounts v db t = Except.ok outs) :
    ∀ o ∈ outs, ∃ a ∈ db.accounts,
      a.id = o.id ∧ maskLaw a.api_key o.api_key := by
  intro o ho
  unfold list_user_accounts at h
  split at h
  · exact Except.noConfusion h
  next uid hv =>
    split at h
    · exact Except.noConfusion h
    next outs2 hb =>
      injection h with h2
      subst h2
      obtain ⟨a, ha, hout⟩ := buildOuts_mem _ _ hb o ho
      obtain ⟨hmem, -, -⟩ := (mem_get_accounts_by_user db uid a).mp ha
      obtain ⟨hkey, hid⟩ := toAccountOut_api_key a o hout
      refine ⟨a, hmem, hid.symm, ?_⟩
      rw [hkey]
      exact maskLaw_maskKey a.api_key

/-- A successful details response is the stored row, shaped with the
masked key. -/
lemma details_ok_mask (v : Verifier) (db : DB) (t : String) (i : Nat)
    (o : AccountOut) (h : get_account_details v db t i = Except.ok o) :
    ∃ a, get_account db i = some a ∧
      a.id = o.id ∧ maskLaw a.api_key o.api_key := by
  unfold get_account_details at h
  split at h
  · exact Except.noConfusion h
  next uid hv =>
    split at h
    · exact Except.noConfusion h
    next a hg =>
      split at h
      · exact Except.noConfusion h
      next howner =>
        split at h
        · exact Except.noConfusion h
        next o2 hout =>
          injection h with h2
          subst h2
          obtain ⟨hkey, hid⟩ := toAccountOut_api_key a _ hout
          exact ⟨a, hg, hid.symm, by rw [hkey]; exact maskLaw_maskKey _⟩

/-- A successful creation response is a stored row shaped with the
masked key. -/
lemma create_ok_mask (v : Verifier) (db : DB) (t : String)
    (d : AccountCreate) (o : AccountOut) (db2 : DB)
    (h : create_trading_account v db t d = (Except.ok o, db2)) :
    ∃ a ∈ db2.accounts, a.id = o.id ∧ maskLaw a.api_key o.api_key := by
  unfold create_trading_account at h
  split at h
  · rw [Prod.mk.injEq] at h
    exact Except.noConfusion h.1
  next uid hv =>
    split at h
    · rw [Prod.mk.injEq] at h
      exact Except.noConfusion h.1
    next hdup =>
      split at h
      · rw [Prod.mk.injEq] at h
        exact Except.noConfusion h.1
      next out hout =>
        rw [Prod.mk.injEq] at h
        obtain ⟨h1, h2⟩ := h
        injection h1 with h1
        subst h1
        subst h2
        obtain ⟨hkey, hid⟩ := toAccountOut_api_key _ _ hout
        refine ⟨_, ?_, hid.symm, by rw [hkey]; exact maskLaw_maskKey _⟩
        simp [create_account]

/-- A successful update response is a stored row shaped with the masked
key. -/
lemma update_ok_mask (v : Verifier) (db : DB) (t : String) (i : Nat)
    (d : AccountUpdate) (o : AccountOut) (db2 : DB)
    (h : update_trading_account v db t i d = (Except.ok o, db2)) :
    ∃ a ∈ db2.accounts, a.id = o.id ∧ maskLaw a.api_key o.api_key := by
  unfold update_trading_account at h
  split at h
  · rw [Prod.mk.injEq] at h
    exact Except.noConfusion h.1
  next uid hv =>
    split at h
    · rw [Prod.mk.injEq] at h
      exact Except.noConfusion h.1
    next a hg =>
      split at h
      · rw [Prod.mk.injEq] at h
        exact Except.noConfusion h.1
      next howner =>
        split at h
        · rw [Prod.mk.injEq] at h
          exact Except.noConfusion h.1
        next hdup =>
          split at h
          · rw [Prod.mk.injEq] at h
            exact Except.noConfusion h.1
          next updated hupd =>
            split at h
            · rw [Prod.mk.injEq] at h
              exact Except.noConfusion h.1
            next out hout =>
              rw [Prod.mk.injEq] at h
              obtain ⟨h1, h2⟩ := h
              injection h1 with h1
              subst h1
              subst h2
              obtain ⟨hkey, hid⟩ := toAccountOut_api_key _ _ hout
              refine ⟨updated, ?_, hid.symm,
                by rw [hkey]; exact maskLaw_maskKey _⟩
              exact update_account_mem db i _ _ _ _ updated hupd

/-- A successful default-account response is a stored row shaped with
the masked key. -/
lemma default_ok_mask (v : Verifier) (db : DB) (t : String)
    (o : AccountOut) (db2 : DB)
    (h : get_or_create_default v db t = (Except.ok o, db2)) :
    ∃ a ∈ db2.accounts, a.id = o.id ∧ maskLaw a.api_key o.api_key := by
  unfold get_or_create_default at h
  split at h
  · rw [Prod.mk.injEq] at h
    exact Except.noConfusion h.1
  next uid hv =>
    split at h
    · rw [Prod.mk.injEq] at h
      exact Except.noConfusion h.1
    next out hout =>
      rw [Prod.mk.injEq] at h
      obtain ⟨h1, h2⟩ := h
      injection h1 with h1
      subst h1
      subst h2
      obtain ⟨hkey, hid⟩ := toAccountOut_api_key _ _ hout
      refine ⟨_, ?_, hid.symm, by rw [hkey]; exact maskLaw_maskKey _⟩
      unfold get_or_create_default_account_defaults
      exact get_or_create_mem db uid _ _ _ _ _

/-- Deactivation of a found row, written as one equation. -/
lemma deactivate_account_eq (db : DB) (i : Nat) (a : Account)
    (h : get_account db i = some a) :
    deactivate_account db i =
      (some { a with is_active := "false" },
        setRow db i { a with is_active := "false" }) := by
  simp [deactivate_account, h]

/-- For a user with no active accounts, get-or-create at its defaults
creates exactly the canned default row and appends it. -/
lemma gocd_defaults_create (db : DB) (uid : Nat)
    (h : get_accounts_by_user db uid true = []) :
    get_or_create_default_account_defaults db uid =
      (defaultAccount db uid,
        ⟨db.accounts ++ [defaultAccount db uid], db.nextId + 1⟩) := by
  simp [get_or_create_default_account_defaults,
    get_or_create_default_account, h, create_account, defaultAccount]

/-- After the default row is created, it is the single active account
the listing returns for its user. -/
lemma gocd_second_listing (db : DB) (uid : Nat)
    (h : get_accounts_by_user db uid true = []) :
    get_accounts_by_user
        ⟨db.accounts ++ [defaultAccount db uid], db.nextId + 1⟩ uid true
      = [defaultAccount db uid] := by
  have h0 : (db.accounts.filter (fun a => a.user_id == uid)).filter
      (fun a => a.is_active == "true") = [] := by
    simpa [get_accounts_by_user] using h
  simp [get_accounts_by_user, List.filter_append, h0, defaultAccount]

example :
    (create_account ⟨[], 0⟩ 1 "Bot1" "AI" 10000 "m" "b" (some "k")).1.current_cash
      = 10000 := by decide

example :
    (create_account ⟨[], 0⟩ 1 "Bot1" "MANUAL" 10000 "m" "b" (some "k")).1.model
      = none := by decide

example : maskKey (some "sk-abcdef123456") = "****3456" := by decide

example : maskKey (some "ab") = "****ab" := by decide

example : maskKey (some "") = "" ∧ maskKey none = "" := by decide

example : maskKey (some "****abcd") = "****abcd" := by decide

/-! ## Claim theorems -/

/-- Claim C1, counterexample to the clause "the output never equals the
stored raw key unless the raw key has length < 4": for the stored key
`"****abcd"`, of length 8, `GetDetails` returns exactly that raw key as
the masked `api_key`. -/
theorem C1_counterexample :
    get_account exC1db 1 = some exC1account ∧
    exC1account.api_key = some "****abcd" ∧
    ¬ ("****abcd" : String).length < 4 ∧
    get_account_details exVerify1 exC1db "tok" 1 = Except.ok exC1out ∧
    exC1out.api_key = "****abcd" := by
  refine ⟨rfl, rfl, by decide, rfl, rfl⟩

/-- Claim C1 (amended): every account output produced by the API (List,
GetDetails, Create, Update, GetOrCreateDefault) is a stored account
shaped under the masking rule — mask literal plus the last 4 characters
when the stored key is present and non-empty, the empty string when it
is absent or empty; the mask is a function of at most the last 4
characters of a non-empty key; and the output equals the stored raw key
only when the raw key is empty or has length exactly 8 and begins with
the mask literal `"****"` (the original "unless length < 4" clause fails
on such keys, see the counterexample). -/
theorem C1_masking_law :
    (∀ (v : Verifier) (db : DB) (t : String) (outs : List AccountOut),
        list_user_accounts v db t = Except.ok outs →
        ∀ o ∈ outs, ∃ a ∈ db.accounts,
          a.id = o.id ∧ maskLaw a.api_key o.api_key) ∧
    (∀ (v : Verifier) (db : DB) (t : String) (i : Nat) (o : AccountOut),
        get_account_details v db t i = Except.ok o →
        ∃ a, get_account db i = some a ∧
          a.id = o.id ∧ maskLaw a.api_key o.api_key) ∧
    (∀ (v : Verifier) (db : DB) (t : String) (d : AccountCreate)
        (o : AccountOut) (db2 : DB),
        create_trading_account v db t d = (Except.ok o, db2) →
        ∃ a ∈ db2.accounts, a.id = o.id ∧ maskLaw a.api_key o.api_key) ∧
    (∀ (v : Verifier) (db : DB) (t : String) (i : Nat) (d : AccountUpdate)
        (o : AccountOut) (db2 : DB),
        update_trading_account v db t i d = (Except.ok o, db2) →
        ∃ a ∈ db2.accounts, a.id = o.id ∧ maskLaw a.api_key o.api_key) ∧
    (∀ (v : Verifier) (db : DB) (t : String) (o : AccountOut) (db2 : DB),
        get_or_create_default v db t = (Except.ok o, db2) →
        ∃ a ∈ db2.accounts, a.id = o.id ∧ maskLaw a.api_key o.api_key) ∧
    (∀ k1 k2 : String, k1 ≠ "" → k2 ≠ "" → takeRight4 k1 = takeRight4 k2 →
        maskKey (some k1) = maskKey (some k2)) ∧
    (∀ k : String, maskKey (some k) = k →
        k = "" ∨ (k.length = 8 ∧ takeLeft4 k = "****")) := by
  refine ⟨?_, ?_, ?_, ?_, ?_, ?_, ?_⟩
  · exact fun v db t outs h => list_ok_mask v db t outs h
  · exact fun v db t i o h => details_ok_mask v db t i o h
  · exact fun v db t d o db2 h => create_ok_mask v db t d o db2 h
  · exact fun v db t i d o db2 h => update_ok_mask v db t i d o db2 h
  · exact fun v db t o db2 h => default_ok_mask v db t o db2 h
  · exact fun k1 k2 h1 h2 h => maskKey_last4 k1 k2 h1 h2 h
  · exact fun k h => maskKey_eq_self k h

/-- Witness for `C1_masking_law`: its `GetDetails` clause applied to the
concrete store `exC1db` and the response `exC1out`. -/
theorem C1_masking_law_witness :
    ∃ a, get_account exC1db 1 = some a ∧
      a.id = exC1out.id ∧ maskLaw a.api_key exC1out.api_key :=
  C1_masking_law.2.1 exVerify1 exC1db "tok" 1 exC1out rfl

/-- Claim C2, counterexample to "requesting a nonexistent account id
returns NotFound (404) regardless of session validity": with an invalid
session and a nonexistent id, `GetDetails` answers Unauthorized (401),
not NotFound — the session is resolved before the account is loaded. -/
theorem C2_counterexample :
    get_account exDB0 7 = none ∧
    get_account_details exVerifyNone exDB0 "tok" 7 =
      Except.error ApiError.unauthorized ∧
    ApiError.unauthorized ≠ ApiError.notFound ∧
    ApiError.unauthorized.status = 401 :=
  ⟨rfl, rfl, by decide, rfl⟩

/-- Claim C2 (amended): for GetDetails, Update and Delete — with a valid
session, a nonexistent account id answers NotFound (404) regardless of
which user the session resolves to; an invalid session answers
Unauthorized (401) even for a nonexistent id (the original "regardless
of session validity" fails, see the counterexample); an existing account
owned by another user answers Forbidden (403) with no account contents
in the response; and the NotFound check runs before the ownership check
(an absent id is answered NotFound whether or not ownership could have
been established, and only an existing row can be answered Forbidden). -/
theorem C2_auth_order :
    (∀ (v : Verifier) (db : DB) (t : String) (i uid : Nat),
        v t = some uid → get_account db i = none →
        get_account_details v db t i = Except.error ApiError.notFound) ∧
    (∀ (v : Verifier) (db : DB) (t : String) (i : Nat) (d : AccountUpdate)
        (uid : Nat),
        v t = some uid → get_account db i = none →
        update_trading_account v db t i d =
          (Except.error ApiError.notFound, db)) ∧
    (∀ (v : Verifier) (db : DB) (t : String) (i uid : Nat),
        v t = some uid → get_account db i = none →
        delete_trading_account v db t i =
          (Except.error ApiError.notFound, db)) ∧
    (∀ (v : Verifier) (db : DB) (t : String) (i : Nat),
        v t = none →
        get_account_details v db t i = Except.error ApiError.unauthorized) ∧
    (∀ (v : Verifier) (db : DB) (t : String) (i : Nat) (d : AccountUpdate),
        v t = none →
        update_trading_account v db t i d =
          (Except.error ApiError.unauthorized, db)) ∧
    (∀ (v : Verifier) (db : DB) (t : String) (i : Nat),
        v t = none →
        delete_trading_account v db t i =
          (Except.error ApiError.unauthorized, db)) ∧
    (∀ (v : Verifier) (db : DB) (t : String) (i uid : Nat) (a : Account),
        v t = some uid → get_account db i = some a → a.user_id ≠ uid →
        get_account_details v db t i = Except.error ApiError.forbidden) ∧
    (∀ (v : Verifier) (db : DB) (t : String) (i : Nat) (d : AccountUpdate)
        (uid : Nat) (a : Account),
        v t = some uid → get_account db i = some a → a.user_id ≠ uid →
        update_trading_account v db t i d =
          (Except.error ApiError.forbidden, db)) ∧
    (∀ (v : Verifier) (db : DB) (t : String) (i uid : Nat) (a : Account),
        v t = some uid → get_account db i = some a → a.user_id ≠ uid →
        delete_trading_account v db t i =
          (Except.error ApiError.forbidden, db)) ∧
    ApiError.notFound.status = 404 ∧ ApiError.forbidden.status = 403 := by
  refine ⟨?_, ?_, ?_, ?_, ?_, ?_, ?_, ?_, ?_, rfl, rfl⟩
  · intro v db t i uid hv hg
    simp [get_account_details, hv, hg]
  · intro v db t i d uid hv hg
    simp [update_trading_account, hv, hg]
  · intro v db t i uid hv hg
    simp [delete_trading_account, hv, hg]
  · intro v db t i hv
    simp [get_account_details, hv]
  · intro v db t i d hv
    simp [update_trading_account, hv]
  · intro v db t i hv
    simp [delete_trading_account, hv]
  · intro v db t i uid a hv hg ha
    simp [get_account_details, hv, hg, ha]
  · intro v db t i d uid a hv hg ha
    simp [update_trading_account, hv, hg, ha]
  · intro v db t i uid a hv hg ha
    simp [delete_trading_account, hv, hg, ha]

/-- Witness for `C2_auth_order`: the valid-session NotFound clause for
`GetDetails` applied to the empty store. -/
theorem C2_auth_order_witness :
    get_account_details exVerify1 exDB0 "tok" 7 =
      Except.error ApiError.notFound :=
  C2_auth_order.1 exVerify1 exDB0 "tok" 7 1 rfl rfl

/-- Claim C3: under a valid session resolving to user `uid`, Create
fails with DuplicateName exactly when `uid` already has an active
account with the requested name (other users' accounts are irrelevant,
since the collision condition ranges only over `uid`'s rows); and when
every active account of `uid` avoids the name — in particular when
`uid`'s only account of that name is inactive — creation with the
schema-default account type `"AI"` succeeds. -/
theorem C3_duplicate_name_create :
    (∀ (v : Verifier) (db : DB) (t : String) (d : AccountCreate)
        (uid : Nat),
        v t = some uid →
        ((create_trading_account v db t d).1 =
            Except.error ApiError.duplicateName ↔
          ∃ a ∈ db.accounts, a.user_id = uid ∧ a.is_active = "true" ∧
            a.name = d.name)) ∧
    (∀ (v : Verifier) (db : DB) (t : String) (d : AccountCreate)
        (uid : Nat),
        v t = some uid → d.account_type = "AI" →
        (∀ a ∈ db.accounts, a.user_id = uid → a.is_active = "true" →
          a.name ≠ d.name) →
        ∃ o, (create_trading_account v db t d).1 = Except.ok o) := by
  constructor
  · intro v db t d uid hv
    by_cases hc : ((get_accounts_by_user db uid true).any
        (fun acc => acc.name == d.name)) = true
    · constructor
      · intro _
        rcases List.any_eq_true.mp hc with ⟨a, ha, he⟩
        obtain ⟨hmem, hu, hact⟩ := (mem_get_accounts_by_user db uid a).mp ha
        exact ⟨a, hmem, hu, hact, beq_iff_eq.mp he⟩
      · intro _
        simp [create_trading_account, hv, hc]
    · have hc2 : ((get_accounts_by_user db uid true).any
          (fun acc => acc.name == d.name)) = false := by
        simpa using hc
      constructor
      · intro h
        exfalso
        cases hout : toAccountOut (create_account db uid d.name
            d.account_type d.initial_capital d.model d.base_url
            (some d.api_key)).1 with
        | none => simp [create_trading_account, hv, hc2, hout] at h
        | some o2 => simp [create_trading_account, hv, hc2, hout] at h
      · intro hcol
        exfalso
        rcases hcol with ⟨a, hmem, hu, hact, hname⟩
        have hc3 : ((get_accounts_by_user db uid true).any
            (fun acc => acc.name == d.name)) = true :=
          List.any_eq_true.mpr
            ⟨a, (mem_get_accounts_by_user db uid a).mpr ⟨hmem, hu, hact⟩,
              beq_iff_eq.mpr hname⟩
        rw [hc2] at hc3
        exact Bool.noConfusion hc3
  · intro v db t d uid hv hAI hno
    have hc2 : ((get_accounts_by_user db uid true).any
        (fun acc => acc.name == d.name)) = false := by
      rw [Bool.eq_false_iff]
      intro hc
      rcases List.any_eq_true.mp hc with ⟨a, ha, he⟩
      obtain ⟨hmem, hu, hact⟩ := (mem_get_accounts_by_user db uid a).mp ha
      exact hno a hmem hu hact (beq_iff_eq.mp he)
    simp [create_trading_account, hv, hc2, create_account, toAccountOut,
      hAI]

/-- Witness for `C3_duplicate_name_create`: on a store where user 1's
only `"X"`-named account is inactive, creating `"X"` does not answer
DuplicateName and indeed succeeds. -/
theorem C3_duplicate_name_create_witness :
    (¬ ((create_trading_account exVerify1 exC3db "tok" exC3data).1 =
        Except.error ApiError.duplicateName)) ∧
    (∃ o, (create_trading_account exVerify1 exC3db "tok" exC3data).1 =
      Except.ok o) := by
  constructor
  · intro h
    rcases (C3_duplicate_name_create.1 exVerify1 exC3db "tok" exC3data 1
        rfl).mp h with ⟨a, hmem, _, hact, hname⟩
    have ha : a = exC3account := by
      rcases List.mem_singleton.mp hmem with rfl
      rfl
    rw [ha] at hact
    exact absurd hact (by decide)
  · exact C3_duplicate_name_create.2 exVerify1 exC3db "tok" exC3data 1
      rfl rfl
      (by
        intro a hmem _ hact
        rcases List.mem_singleton.mp hmem with rfl
        exact absurd hact (by decide))

/-- Claim C4, counterexample: the supplied name `""` is among the update
fields and collides with another active account of the caller
(`exC4empty`), yet the update succeeds instead of failing with
DuplicateName — the handler tests Python truthiness of the name, which
skips the uniqueness check for the empty string. -/
theorem C4_counterexample :
    exC4data.name = some "" ∧
    exC4empty ∈ exC4db.accounts ∧
    exC4empty.user_id = 1 ∧
    exC4empty.is_active = "true" ∧
    exC4empty.name = "" ∧
    exC4empty.id ≠ 2 ∧
    (get_account exC4db 2).map Account.user_id = some 1 ∧
    (update_trading_account exVerify1 exC4db "tok" 2 exC4data).1 =
      Except.ok exC4out ∧
    (update_trading_account exVerify1 exC4db "tok" 2 exC4data).1 ≠
      Except.error ApiError.duplicateName := by
  refine ⟨rfl, List.mem_cons_self _ _, rfl, rfl, rfl, by decide, rfl,
    rfl, ?_⟩
  intro hbad
  have hok : (update_trading_account exVerify1 exC4db "tok" 2
      exC4data).1 = Except.ok exC4out := rfl
  rw [hok] at hbad
  exact Except.noConfusion hbad

/-- Claim C4 (amended): for an owned, existing account, when the
supplied `name` is a *non-empty* string the handler re-checks
uniqueness against the caller's other active accounts (excluding the
account being updated) and fails with DuplicateName exactly on
collision; when `name` is not supplied — or is the empty string, which
Python truthiness treats like an absent name (the original claim fails
there, see the counterexample) — no uniqueness check is performed and
DuplicateName is never raised. -/
theorem C4_duplicate_name_update :
    (∀ (v : Verifier) (db : DB) (t : String) (i : Nat) (d : AccountUpdate)
        (uid : Nat) (a : Account) (n : String),
        v t = some uid → get_account db i = some a → a.user_id = uid →
        d.name = some n → n ≠ "" →
        ((update_trading_account v db t i d).1 =
            Except.error ApiError.duplicateName ↔
          ∃ b ∈ db.accounts, b.user_id = uid ∧ b.is_active = "true" ∧
            b.name = n ∧ b.id ≠ i)) ∧
    (∀ (v : Verifier) (db : DB) (t : String) (i : Nat) (d : AccountUpdate)
        (uid : Nat) (a : Account),
        v t = some uid → get_account db i = some a → a.user_id = uid →
        (d.name = none ∨ d.name = some "") →
        (update_trading_account v db t i d).1 ≠
          Except.error ApiError.duplicateName) := by
  constructor
  · intro v db t i d uid a n hv hg hown hn hne
    have htr : nameTruthy d.name = true := by simp [nameTruthy, hn, hne]
    by_cases hcany : ((get_accounts_by_user db uid true).any
        (fun acc => acc.name == d.name.getD "" && acc.id != i)) = true
    · constructor
      · intro _
        rcases List.any_eq_true.mp hcany with ⟨b, hb, hbe⟩
        obtain ⟨hmem, hu, hact⟩ := (mem_get_accounts_by_user db uid b).mp hb
        rw [Bool.and_eq_true] at hbe
        obtain ⟨hbn, hbi⟩ := hbe
        refine ⟨b, hmem, hu, hact, ?_, ?_⟩
        · have h2 := beq_iff_eq.mp hbn
          rw [hn] at h2
          simpa using h2
        · simpa using hbi
      · intro _
        simp [update_trading_account, hv, hg, hown, htr, hcany]
    · have hany : ((get_accounts_by_user db uid true).any
          (fun acc => acc.name == d.name.getD "" && acc.id != i)) =
            false := by
        simpa using hcany
      have hcond : (nameTruthy d.name &&
          (get_accounts_by_user db uid true).any
            (fun acc => acc.name == d.name.getD "" && acc.id != i)) =
              false := by
        simp [hany]
      constructor
      · intro h
        exfalso
        cases hupd : (update_account db i d.name d.model d.base_url
            d.api_key).1 with
        | none =>
            simp [update_trading_account, hv, hg, hown, hcond, hupd] at h
        | some updated =>
            cases hout : toAccountOut updated with
            | none =>
                simp [update_trading_account, hv, hg, hown, hcond, hupd,
                  hout] at h
            | some o =>
                simp [update_trading_account, hv, hg, hown, hcond, hupd,
                  hout] at h
      · intro hcol
        exfalso
        rcases hcol with ⟨b, hmem, hu, hact, hbn, hbi⟩
        exact hcany (List.any_eq_true.mpr
          ⟨b, (mem_get_accounts_by_user db uid b).mpr ⟨hmem, hu, hact⟩,
            by simp [hn, hbn, hbi]⟩)
  · intro v db t i d uid a hv hg hown hname
    have htr : nameTruthy d.name = false := by
      rcases hname with h | h <;> simp [nameTruthy, h]
    have hcond : (nameTruthy d.name &&
        (get_accounts_by_user db uid true).any
          (fun acc => acc.name == d.name.getD "" && acc.id != i)) =
            false := by
      simp [htr]
    intro h
    cases hupd : (update_account db i d.name d.model d.base_url
        d.api_key).1 with
    | none =>
        simp [update_trading_account, hv, hg, hown, hcond, hupd] at h
    | some updated =>
        cases hout : toAccountOut updated with
        | none =>
            simp [update_trading_account, hv, hg, hown, hcond, hupd,
              hout] at h
        | some o =>
            simp [update_trading_account, hv, hg, hown, hcond, hupd,
              hout] at h

/-- Witness for `C4_duplicate_name_update`: updating account 1 of
`exC4db` to the non-empty name `"x"` collides with the caller's active
account 2 and is refused with DuplicateName. -/
theorem C4_duplicate_name_update_witness :
    (update_trading_account exVerify1 exC4db "tok" 1 exC4data2).1 =
      Except.error ApiError.duplicateName :=
  (C4_duplicate_name_update.1 exVerify1 exC4db "tok" 1 exC4data2 1
      exC4empty "x" rfl rfl rfl rfl (by decide)).mpr
    ⟨exC4other, List.mem_cons_of_mem _ (List.mem_cons_self _ _),
      rfl, rfl, rfl, by decide⟩

/-- Claim C5: every repository create yields a stored row with
`current_cash = initial_capital`, `frozen_cash = 0` and the active flag
set; when the account type is not `"AI"` (e.g. `"MANUAL"`) the stored
`model`, `base_url` and `api_key` are all null, and when it is `"AI"`
they take the supplied values. -/
theorem C5_create_postconditions :
    ∀ (db : DB) (uid : Nat) (nm atype : String) (ic : Rat)
      (mdl burl : String) (key : Option String),
      (create_account db uid nm atype ic mdl burl key).1.current_cash
          = ic ∧
      (create_account db uid nm atype ic mdl burl key).1.frozen_cash
          = 0 ∧
      (create_account db uid nm atype ic mdl burl key).1.is_active
          = "true" ∧
      (create_account db uid nm atype ic mdl burl key).1 ∈
        (create_account db uid nm atype ic mdl burl key).2.accounts ∧
      (atype ≠ "AI" →
        (create_account db uid nm atype ic mdl burl key).1.model = none ∧
        (create_account db uid nm atype ic mdl burl key).1.base_url
            = none ∧
        (create_account db uid nm atype ic mdl burl key).1.api_key
            = none) ∧
      (atype = "AI" →
        (create_account db uid nm atype ic mdl burl key).1.model
            = some mdl ∧
        (create_account db uid nm atype ic mdl burl key).1.base_url
            = some burl ∧
        (create_account db uid nm atype ic mdl burl key).1.api_key
            = key) := by
  intro db uid nm atype ic mdl burl key
  refine ⟨rfl, rfl, rfl, by simp [create_account], ?_, ?_⟩
  · intro h
    refine ⟨?_, ?_, ?_⟩ <;> simp [create_account, h]
  · intro h
    refine ⟨?_, ?_, ?_⟩ <;> simp [create_account, h]

/-- Witness for `C5_create_postconditions`: a MANUAL creation on the
empty store nulls the AI-only columns and funds the cash balance. -/
theorem C5_create_postconditions_witness :
    (create_account exDB0 1 "Hand" "MANUAL" 10000 "m" "u"
        (some "k")).1.current_cash = 10000 ∧
    (create_account exDB0 1 "Hand" "MANUAL" 10000 "m" "u"
        (some "k")).1.model = none := by
  have h := C5_create_postconditions exDB0 1 "Hand" "MANUAL" 10000 "m"
    "u" (some "k")
  exact ⟨h.1, (h.2.2.2.2.1 (by decide)).1⟩

/-- Claim C6: for a user with zero prior active accounts, get-or-create
creates exactly one account — an `"AI"` account with the canned
defaults — and a second call returns the very same account and store
without creating another; for a user who already has active accounts it
returns the first of them and leaves the store untouched. -/
theorem C6_get_or_create_idempotent :
    (∀ (db : DB) (uid : Nat),
        get_accounts_by_user db uid true = [] →
        (get_or_create_default_account_defaults db uid).2.accounts.length
            = db.accounts.length + 1 ∧
        (get_or_create_default_account_defaults db uid).1.user_id
            = uid ∧
        (get_or_create_default_account_defaults db uid).1.account_type
            = "AI" ∧
        (get_or_create_default_account_defaults db uid).1.name
            = "Default AI Trader" ∧
        (get_or_create_default_account_defaults db uid).1.model
            = some "gpt-4-turbo" ∧
        (get_or_create_default_account_defaults db uid).1.base_url
            = some "https://api.openai.com/v1" ∧
        (get_or_create_default_account_defaults db uid).1.api_key
            = some "default-key-please-update-in-settings" ∧
        (get_or_create_default_account_defaults db uid).1.initial_capital
            = 10000 ∧
        get_or_create_default_account_defaults
            (get_or_create_default_account_defaults db uid).2 uid =
          ((get_or_create_default_account_defaults db uid).1,
            (get_or_create_default_account_defaults db uid).2)) ∧
    (∀ (db : DB) (uid : Nat) (a : Account) (rest : List Account),
        get_accounts_by_user db uid true = a :: rest →
        get_or_create_default_account_defaults db uid = (a, db)) := by
  constructor
  · intro db uid h
    rw [gocd_defaults_create db uid h]
    refine ⟨by simp, rfl, rfl, rfl, rfl, rfl, rfl, rfl, ?_⟩
    rw [show ((defaultAccount db uid,
        (⟨db.accounts ++ [defaultAccount db uid], db.nextId + 1⟩ : DB)) :
          Account × DB).2 =
        ⟨db.accounts ++ [defaultAccount db uid], db.nextId + 1⟩ from rfl]
    simp [get_or_create_default_account_defaults,
      get_or_create_default_account, gocd_second_listing db uid h]
  · intro db uid a rest h
    simp [get_or_create_default_account_defaults,
      get_or_create_default_account, h]

/-- Witness for `C6_get_or_create_idempotent`: both clauses on the empty
store for user 1 (zero prior accounts), and the second clause again on
the store the first call produced. -/
theorem C6_get_or_create_idempotent_witness :
    (get_or_create_default_account_defaults exDB0 1).2.accounts.length
        = 1 ∧
    get_or_create_default_account_defaults
        (get_or_create_default_account_defaults exDB0 1).2 1 =
      ((get_or_create_default_account_defaults exDB0 1).1,
        (get_or_create_default_account_defaults exDB0 1).2) := by
  have h := C6_get_or_create_idempotent.1 exDB0 1 rfl
  exact ⟨h.1, h.2.2.2.2.2.2.2.2⟩

/-- Claim C7: the repository update overwrites exactly the supplied
fields among name, model, base_url, api_key of the stored row, leaves
absent fields and every other column (id, user_id, account_type,
initial_capital, current_cash, frozen_cash, is_active) untouched, and
returns none with an unchanged store when the id does not exist. -/
theorem C7_update_frame :
    (∀ (db : DB) (i : Nat) (nm mdl burl key : Option String)
        (a : Account),
        get_account db i = some a →
        ∃ a2, (update_account db i nm mdl burl key).1 = some a2 ∧
          get_account (update_account db i nm mdl burl key).2 i
              = some a2 ∧
          (nm = none → a2.name = a.name) ∧
          (∀ s, nm = some s → a2.name = s) ∧
          (mdl = none → a2.model = a.model) ∧
          (∀ s, mdl = some s → a2.model = some s) ∧
          (burl = none → a2.base_url = a.base_url) ∧
          (∀ s, burl = some s → a2.base_url = some s) ∧
          (key = none → a2.api_key = a.api_key) ∧
          (∀ s, key = some s → a2.api_key = some s) ∧
          a2.id = a.id ∧ a2.user_id = a.user_id ∧
          a2.account_type = a.account_type ∧
          a2.initial_capital = a.initial_capital ∧
          a2.current_cash = a.current_cash ∧
          a2.frozen_cash = a.frozen_cash ∧
          a2.is_active = a.is_active) ∧
    (∀ (db : DB) (i : Nat) (nm mdl burl key : Option String),
        get_account db i = none →
        update_account db i nm mdl burl key = (none, db)) := by
  constructor
  · intro db i nm mdl burl key a hg
    refine ⟨applyUpdate nm mdl burl key a, by simp [update_account, hg],
      ?_, ?_, ?_, ?_, ?_, ?_, ?_, ?_, ?_, rfl, rfl, rfl, rfl, rfl, rfl,
      rfl⟩
    · have h2 : (update_account db i nm mdl burl key).2 =
          setRow db i (applyUpdate nm mdl burl key a) := by
        simp [update_account, hg]
      rw [h2]
      exact get_setRow db i a _ hg ((get_account_mem db i a hg).2)
    · intro h
      subst h
      rfl
    · intro s h
      subst h
      rfl
    · intro h
      subst h
      rfl
    · intro s h
      subst h
      rfl
    · intro h
      subst h
      rfl
    · intro s h
      subst h
      rfl
    · intro h
      subst h
      rfl
    · intro s h
      subst h
      rfl
  · intro db i nm mdl burl key h
    simp [update_account, h]

/-- Witness for `C7_update_frame`: a name-only update of the stored
account 1 keeps `model` and `current_cash`, and updating a nonexistent
id 5 of the empty store changes nothing. -/
theorem C7_update_frame_witness :
    (∃ a2, (update_account exC1db 1 (some "New") none none none).1
          = some a2 ∧
        a2.model = exC1account.model ∧
        a2.current_cash = exC1account.current_cash) ∧
    update_account exDB0 5 (some "New") none none none
      = (none, exDB0) := by
  constructor
  · obtain ⟨a2, h1, h2, h3, h4, h5, h6, h7, h8, h9, h10, h11, h12, h13,
      h14, h15, h16, h17⟩ :=
      C7_update_frame.1 exC1db 1 (some "New") none none none
        exC1account rfl
    exact ⟨a2, h1, h5 rfl, h15⟩
  · exact C7_update_frame.2 exDB0 5 (some "New") none none none rfl

/-- Claim C8: deactivating an existing account flips `is_active` to
`"false"` and removes no row; a second deactivation still succeeds with
the flag still `"false"` and still removes no row.  The API Delete
performs this soft delete and succeeds for any existing account owned
by the caller — the handler never inspects `is_active`, so an already
inactive account is deleted just the same (see the witness). -/
theorem C8_soft_delete_idempotent :
    (∀ (db : DB) (i : Nat) (a : Account),
        get_account db i = some a →
        (deactivate_account db i).1
            = some { a with is_active := "false" } ∧
        (deactivate_account db i).2.accounts.length
            = db.accounts.length ∧
        get_account (deactivate_account db i).2 i
            = some { a with is_active := "false" } ∧
        (deactivate_account (deactivate_account db i).2 i).1
            = some { a with is_active := "false" } ∧
        (deactivate_account
            (deactivate_account db i).2 i).2.accounts.length
            = db.accounts.length) ∧
    (∀ (v : Verifier) (db : DB) (t : String) (i uid : Nat) (a : Account),
        v t = some uid → get_account db i = some a → a.user_id = uid →
        delete_trading_account v db t i =
          (Except.ok
              ("Account " ++ a.name ++ " deactivated successfully"),
            (deactivate_account db i).2) ∧
        get_account (deactivate_account db i).2 i
            = some { a with is_active := "false" }) := by
  constructor
  · intro db i a hg
    have hid : a.id = i := (get_account_mem db i a hg).2
    have e1 := deactivate_account_eq db i a hg
    have hget2 : get_account
        (setRow db i { a with is_active := "false" }) i
        = some { a with is_active := "false" } :=
      get_setRow db i a _ hg hid
    have e2 := deactivate_account_eq
      (setRow db i { a with is_active := "false" }) i
      { a with is_active := "false" } hget2
    refine ⟨?_, ?_, ?_, ?_, ?_⟩
    · rw [e1]
    · rw [e1]
      exact length_setRow db i _
    · rw [e1]
      exact hget2
    · rw [e1]
      show (deactivate_account
          (setRow db i { a with is_active := "false" }) i).1
          = some { a with is_active := "false" }
      rw [e2]
    · rw [e1]
      show (deactivate_account
          (setRow db i { a with is_active := "false" })
            i).2.accounts.length
          = db.accounts.length
      rw [e2]
      show (setRow (setRow db i { a with is_active := "false" }) i
          { a with is_active := "false" }).accounts.length
          = db.accounts.length
      rw [length_setRow, length_setRow]
  · intro v db t i uid a hv hg hown
    have hid : a.id = i := (get_account_mem db i a hg).2
    constructor
    · simp [delete_trading_account, hv, hg, hown]
    · have h2 : (deactivate_account db i).2 =
          setRow db i { a with is_active := "false" } := by
        simp [deactivate_account, hg]
      rw [h2]
      exact get_setRow db i a _ hg hid

/-- Witness for `C8_soft_delete_idempotent`: deleting account 1 of
`exC3db` — an account that is *already inactive* — still succeeds, and
deactivation leaves the flag `"false"`. -/
theorem C8_soft_delete_idempotent_witness :
    exC3account.is_active = "false" ∧
    (deactivate_account exC3db 1).1
        = some { exC3account with is_active := "false" } ∧
    delete_trading_account exVerify1 exC3db "tok" 1 =
      (Except.ok
          ("Account " ++ exC3account.name ++ " deactivated successfully"),
        (deactivate_account exC3db 1).2) := by
  refine ⟨rfl, ?_, ?_⟩
  · exact (C8_soft_delete_idempotent.1 exC3db 1 exC3account rfl).1
  · exact (C8_soft_delete_idempotent.2 exVerify1 exC3db "tok" 1 1
      exC3account rfl rfl rfl).1

/-- Claim C9: the repository cash update always overwrites
`current_cash`, overwrites `frozen_cash` only when supplied, changes no
other field of the stored row, and returns none with an unchanged store
when the id does not exist. -/
theorem C9_update_cash :
    (∀ (db : DB) (i : Nat) (cc : Rat) (fc : Option Rat) (a : Account),
        get_account db i = some a →
        ∃ a2, (update_account_cash db i cc fc).1 = some a2 ∧
          get_account (update_account_cash db i cc fc).2 i = some a2 ∧
          a2.current_cash = cc ∧
          (fc = none → a2.frozen_cash = a.frozen_cash) ∧
          (∀ f, fc = some f → a2.frozen_cash = f) ∧
          a2.id = a.id ∧ a2.user_id = a.user_id ∧ a2.name = a.name ∧
          a2.account_type = a.account_type ∧ a2.model = a.model ∧
          a2.base_url = a.base_url ∧ a2.api_key = a.api_key ∧
          a2.initial_capital = a.initial_capital ∧
          a2.is_active = a.is_active) ∧
    (∀ (db : DB) (i : Nat) (cc : Rat) (fc : Option Rat),
        get_account db i = none →
        update_account_cash db i cc fc = (none, db)) := by
  constructor
  · intro db i cc fc a hg
    refine ⟨applyCash cc fc a, by simp [update_account_cash, hg], ?_,
      rfl, ?_, ?_, rfl, rfl, rfl, rfl, rfl, rfl, rfl, rfl, rfl⟩
    · have h2 : (update_account_cash db i cc fc).2 =
          setRow db i (applyCash cc fc a) := by
        simp [update_account_cash, hg]
      rw [h2]
      exact get_setRow db i a _ hg ((get_account_mem db i a hg).2)
    · intro h
      subst h
      rfl
    · intro f h
      subst h
      rfl
  · intro db i cc fc h
    simp [update_account_cash, h]

/-- Witness for `C9_update_cash`: setting account 1's cash to 500 while
not supplying `frozen_cash` leaves the frozen amount unchanged, and a
cash update on a nonexistent id changes nothing. -/
theorem C9_update_cash_witness :
    (∃ a2, (update_account_cash exC1db 1 500 none).1 = some a2 ∧
        a2.current_cash = 500 ∧
        a2.frozen_cash = exC1account.frozen_cash) ∧
    update_account_cash exDB0 5 500 none = (none, exDB0) := by
  constructor
  · obtain ⟨a2, h1, h2, h3, h4, h5, h6, h7, h8, h9, h10, h11, h12, h13,
      h14⟩ := C9_update_cash.1 exC1db 1 500 none exC1account rfl
    exact ⟨a2, h1, h3, h4 rfl⟩
  · exact C9_update_cash.2 exDB0 5 500 none rfl

/-- Claim C10 (implicit): the success response requires `model` and
`base_url` to be non-null strings, so a freshly created MANUAL account
— whose `model`, `base_url`, `api_key` are nulled — cannot be shaped
into a success response; the row is committed before the response is
built, so the API creation of a MANUAL account persists the row yet
answers Internal (500) instead of a success. -/
theorem C10_manual_create_persists_without_success :
    ∀ (v : Verifier) (db : DB) (t : String) (d : AccountCreate)
      (uid : Nat),
      v t = some uid → d.account_type = "MANUAL" →
      ((get_accounts_by_user db uid true).any
        (fun acc => acc.name == d.name)) = false →
      (create_account db uid d.name d.account_type d.initial_capital
          d.model d.base_url (some d.api_key)).1.model = none ∧
      (create_account db uid d.name d.account_type d.initial_capital
          d.model d.base_url (some d.api_key)).1.base_url = none ∧
      (create_account db uid d.name d.account_type d.initial_capital
          d.model d.base_url (some d.api_key)).1.api_key = none ∧
      toAccountOut (create_account db uid d.name d.account_type
          d.initial_capital d.model d.base_url (some d.api_key)).1
          = none ∧
      create_trading_account v db t d =
        (Except.error ApiError.internal,
          (create_account db uid d.name d.account_type d.initial_capital
            d.model d.base_url (some d.api_key)).2) ∧
      (create_account db uid d.name d.account_type d.initial_capital
          d.model d.base_url (some d.api_key)).1 ∈
        (create_account db uid d.name d.account_type d.initial_capital
          d.model d.base_url (some d.api_key)).2.accounts ∧
      (create_account db uid d.name d.account_type d.initial_capital
          d.model d.base_url
          (some d.api_key)).2.accounts.length
          = db.accounts.length + 1 := by
  intro v db t d uid hv hM hc
  have hmodel : (create_account db uid d.name d.account_type
      d.initial_capital d.model d.base_url
      (some d.api_key)).1.model = none := by
    simp [create_account, hM]
  have hout : toAccountOut (create_account db uid d.name d.account_type
      d.initial_capital d.model d.base_url (some d.api_key)).1
      = none := by
    unfold toAccountOut
    rw [hmodel]
  refine ⟨hmodel, by simp [create_account, hM],
    by simp [create_account, hM], hout, ?_,
    by simp [create_account], by simp [create_account]⟩
  simp [create_trading_account, hv, hc, hout]

/-- Witness for `C10_manual_create_persists_without_success`: creating
the MANUAL request `exC10data` on the empty store answers Internal yet
hands back the store containing the new row. -/
theorem C10_manual_create_persists_without_success_witness :
    toAccountOut (create_account exDB0 1 exC10data.name
        exC10data.account_type exC10data.initial_capital exC10data.model
        exC10data.base_url (some exC10data.api_key)).1 = none ∧
    create_trading_account exVerify1 exDB0 "tok" exC10data =
      (Except.error ApiError.internal,
        (create_account exDB0 1 exC10data.name exC10data.account_type
          exC10data.initial_capital exC10data.model exC10data.base_url
          (some exC10data.api_key)).2) ∧
    (create_account exDB0 1 exC10data.name exC10data.account_type
        exC10data.initial_capital exC10data.model exC10data.base_url
        (some exC10data.api_key)).2.accounts.length = 1 := by
  have h := C10_manual_create_persists_without_success exVerify1 exDB0
    "tok" exC10data 1 rfl rfl rfl
  exact ⟨h.2.2.2.1, h.2.2.2.2.1, h.2.2.2.2.2.2⟩
